import Mathlib

/-!
Verification of the NovaFlow accessibility-audit pipeline.

This file gives a shallow embedding of the core logic of the repository:

* `src/utils/wcag_scorer.py` — the pure WCAG scoring function
  `calculate_wcag_scores`, together with its constant tables
  `WCAG_PRINCIPLES` and `SEVERITY_DEDUCTIONS`;
* `src/nova_engine.py` — the analysis client `analyse_with_nova`
  (retry loop with backoff and JSON-delimiters extraction), the capture
  orchestrator `capture_screenshot` (tiered fallback) and the pipeline
  coordinator `run_accessibility_test`.

External effects (the Bedrock call, the browser backends, `json.loads`,
`time.sleep`) are modelled as explicit oracle parameters; sleeps are
returned as data so backoff schedules can be stated.
-/

namespace NovaFlow

/-- An issue dict as consumed by the scorer.  The Python scorer reads only
the keys `"wcag_id"` (via `issue.get("wcag_id", "")`) and `"severity"`
(via `issue.get("severity", d)` with defaults `"MINOR"` or `""`); absent
keys are modelled as `none`.  The further keys of the dict (title,
description, confidence, …) are never read by any code the claims touch,
so they are omitted from the embedding. -/
structure Issue where
  wcag_id : Option String
  severity : Option String
deriving DecidableEq, Repr

/-- ASCII upper-casing of one character.  `str.upper()` of Python is used
by the scorer only to compare severity strings against the ASCII constants
`"CRITICAL"`, `"MAJOR"`, `"MINOR"`, `"INFO"`; on the ASCII range Python's
`upper` is exactly this mapping. -/
def charUpper (c : Char) : Char :=
  if 97 ≤ c.toNat ∧ c.toNat ≤ 122 then Char.ofNat (c.toNat - 32) else c

/-- `s.upper()` (ASCII range, see `charUpper`). -/
def strUpper (s : String) : String := ⟨s.data.map charUpper⟩

/-- Helper for `strStarts`: does the first character list start with the
second one? -/
def listStarts : List Char → List Char → Bool
  | _, [] => true
  | [], _ :: _ => false
  | c :: s, d :: p => c = d && listStarts s p

/-- `s.startswith(code)` of Python, on the character sequences. -/
def strStarts (s code : String) : Bool := listStarts s.data code.data

/-- The `WCAG_PRINCIPLES` dict of `wcag_scorer.py`.  Python 3.7+ dicts
iterate in insertion order, so the dict is an ordered association list. -/
def WCAG_PRINCIPLES : List (String × List String) :=
  [ ("Perceivable",
      ["1.1.1", "1.2.1", "1.2.2", "1.3.1", "1.3.2", "1.4.1", "1.4.3", "1.4.4", "1.4.11"]),
    ("Operable",
      ["2.1.1", "2.1.2", "2.2.1", "2.2.2", "2.3.1", "2.4.1", "2.4.2", "2.4.3", "2.4.4", "2.4.7"]),
    ("Understandable",
      ["3.1.1", "3.1.2", "3.2.1", "3.2.2", "3.3.1", "3.3.2", "3.3.3", "3.3.4"]),
    ("Robust",
      ["4.1.1", "4.1.2", "4.1.3"]) ]

/-- `SEVERITY_DEDUCTIONS.get(s, 4)` of `wcag_scorer.py`: the dict lookup
with default 4 applied to an (already upper-cased) severity string. -/
def SEVERITY_DEDUCTIONS (s : String) : Nat :=
  if s = "CRITICAL" then 20
  else if s = "MAJOR" then 10
  else if s = "MINOR" then 4
  else if s = "INFO" then 1
  else 4

/-- The classification loop of `calculate_wcag_scores`: walk the ordered
principle list and return the first principle one of whose codes is a
prefix of `wcag_id` (`wcag_id.startswith(code)`); `none` when no code
matches (the `unclassified` case).  The Python `break` is the return of
the first match. -/
def classifyIssue (wcag_id : String) : List (String × List String) → Option String
  | [] => none
  | (p, codes) :: rest =>
      if codes.any (fun code => strStarts wcag_id code) then some p
      else classifyIssue wcag_id rest

/-- The `wcag_id` actually used by the scorer: `issue.get("wcag_id", "")`. -/
def issueId (i : Issue) : String := i.wcag_id.getD ""

/-- The per-issue severity weight of the deduction sum:
`SEVERITY_DEDUCTIONS.get(i.get("severity", "MINOR").upper(), 4)`. -/
def severityWeight (i : Issue) : Nat :=
  SEVERITY_DEDUCTIONS (strUpper (i.severity.getD "MINOR"))

/-- `principle_issues[p]`: the sub-list of issues classified into
principle `p`, in input order. -/
def principleIssues (issues : List Issue) (p : String) : List Issue :=
  issues.filter (fun i => classifyIssue (issueId i) WCAG_PRINCIPLES = some p)

/-- The `unclassified` list: issues matching no principle, in input order. -/
def unclassifiedIssues (issues : List Issue) : List Issue :=
  issues.filter (fun i => classifyIssue (issueId i) WCAG_PRINCIPLES = none)

/-- `deduction` for one principle: the sum of the severity weights of its
issues. -/
def deduction (issues : List Issue) (p : String) : Nat :=
  ((principleIssues issues p).map severityWeight).sum

/-- `scores[p] = max(0, 100 - deduction)`. -/
def principleScore (issues : List Issue) (p : String) : Int :=
  max 0 (100 - (deduction issues p : Int))

/-- The conformance-level ladder of `calculate_wcag_scores`. -/
def wcagLevelOf (overall : Int) : String :=
  if overall ≥ 90 then "AAA - Enhanced"
  else if overall ≥ 75 then "AA - Conformant"
  else if overall ≥ 55 then "AA - Partially Conformant"
  else "A - Partially Conformant"

/-- The count comparisons of the returned dict:
`i.get("severity", "").upper() == s` (note the `""` default here, unlike
the `"MINOR"` default of the deduction sum). -/
def severityIs (i : Issue) (s : String) : Bool :=
  strUpper (i.severity.getD "") = s

/-- The dict returned by `calculate_wcag_scores`. -/
structure WcagResult where
  scores_by_principle : List (String × Int)
  overall_score : Int
  wcag_level : String
  total_issues : Nat
  critical_count : Nat
  major_count : Nat
  minor_count : Nat
  unclassified_count : Nat
deriving DecidableEq, Repr

/-- `calculate_wcag_scores` of `src/utils/wcag_scorer.py`.  The bucket
dict built by the classification loop is embedded through
`principleIssues`/`unclassifiedIssues` (the loop appends each issue to
the bucket of its first matching principle, preserving input order, which
is exactly a filter per principle).  `overall = int(sum(scores.values()) /
len(scores))`: the sum of the four scores is in `[0, 400]`, its division
by 4 is exact in floating point and `int` truncation of a non-negative
value is integer division. -/
def calculate_wcag_scores (issues : List Issue) : WcagResult :=
  let scores := WCAG_PRINCIPLES.map (fun pc => (pc.1, principleScore issues pc.1))
  let overall : Int := (scores.map Prod.snd).sum / (scores.length : Int)
  { scores_by_principle := scores
    overall_score := overall
    wcag_level := wcagLevelOf overall
    total_issues := issues.length
    critical_count := (issues.filter (fun i => severityIs i "CRITICAL")).length
    major_count := (issues.filter (fun i => severityIs i "MAJOR")).length
    minor_count := (issues.filter (fun i => severityIs i "MINOR")).length
    unclassified_count := (unclassifiedIssues issues).length }

/-! ## The engine: `src/nova_engine.py`

The Bedrock call, `json.loads`, the browser backends and `time.sleep` are
external effects; they enter the embedding as oracle parameters, and the
sleeps performed are returned as data. -/

/-- The opening-brace character, `chr(123)`. -/
def braceOpen : Char := Char.ofNat 123

/-- The closing-brace character, `chr(125)`. -/
def braceClose : Char := Char.ofNat 125

/-- First index of `c` in `l` (`str.find`, `none` for Python's `-1`). -/
def findIdx (c : Char) : List Char → Option Nat
  | [] => none
  | d :: rest =>
      if d = c then some 0
      else (findIdx c rest).map (· + 1)

/-- Last index of `c` in `l` (`str.rfind`, `none` for Python's `-1`). -/
def rfindIdx (c : Char) (l : List Char) : Option Nat :=
  (findIdx c l.reverse).map (fun k => l.length - 1 - k)

/-- The JSON-substring extraction of `analyse_with_nova`:
`json_start = text.find(chr(123))`, `json_end = text.rfind(chr(125))`;
when both are found, the slice `text[json_start : json_end + 1]`
(empty when the last closing brace precedes the first opening brace,
exactly as in Python); `none` when either delimiter is missing. -/
def extractJsonStr (text : String) : Option String :=
  match findIdx braceOpen text.data, rfindIdx braceClose text.data with
  | some s, some e => some ⟨(text.data.drop s).take (e + 1 - s)⟩
  | some _, none => none
  | none, _ => none

/-- The fields `analyse_with_nova` reads off the parsed JSON dict, each via
`parsed.get(key, default)`; an absent key is `none`. -/
structure ParsedDoc where
  wcag_issues : Option (List Issue)
  web_grounding_sources : Option (List String)
  overall_assessment : Option String
deriving DecidableEq, Repr

/-- The `(issues, sources, assessment)` triple returned by
`analyse_with_nova`. -/
structure NovaResult where
  issues : List Issue
  sources : List String
  assessment : String
deriving DecidableEq, Repr

/-- One run of the analysis client: its returned triple plus the list of
back-off sleeps (in seconds) it performed, in order. -/
structure AnalyseRun where
  result : NovaResult
  sleeps : List Nat
deriving DecidableEq, Repr

/-- `max_retries` of `analyse_with_nova`. -/
def max_retries : Nat := 3

/-- The retry loop of `analyse_with_nova`, from attempt number `attempt`
with `r` loop iterations left (`r = max_retries - attempt`).  `call k`
is the whole fallible prefix of the `try` body at attempt `k` (file read,
`bedrock.converse`, response indexing): `.ok text` yields the model's raw
text output, `.error e` a raised exception with message `e`.  `parse` is
`json.loads`: `.error` is a raised `ValueError`, caught by the same
`except` clause.  On an exception with `attempt < max_retries - 1`
(that is, `r ≠ 1` here, so at least one iteration remains after this one)
the loop sleeps `2 ** attempt` seconds and continues; on the last attempt
it returns the `"Bedrock error: …"` soft failure.  The `r = 0` base case
is unreachable from `r = max_retries ≥ 1` since every iteration either
returns or decrements `r` to a positive value. -/
def analyseAttempts (call : Nat → Except String String)
    (parse : String → Except String ParsedDoc) : Nat → Nat → AnalyseRun
  | _, 0 => ⟨⟨[], [], ""⟩, []⟩
  | attempt, r + 1 =>
    match call attempt with
    | .ok text =>
      match extractJsonStr text with
      | some js =>
        match parse js with
        | .ok doc =>
            ⟨⟨doc.wcag_issues.getD [], doc.web_grounding_sources.getD [],
              doc.overall_assessment.getD ""⟩, []⟩
        | .error e =>
            if r = 0 then ⟨⟨[], [], "Bedrock error: " ++ e⟩, []⟩
            else
              let rest := analyseAttempts call parse (attempt + 1) r
              ⟨rest.result, 2 ^ attempt :: rest.sleeps⟩
      | none => ⟨⟨[], [], "Analysis parsing failed"⟩, []⟩
    | .error e =>
        if r = 0 then ⟨⟨[], [], "Bedrock error: " ++ e⟩, []⟩
        else
          let rest := analyseAttempts call parse (attempt + 1) r
          ⟨rest.result, 2 ^ attempt :: rest.sleeps⟩

/-- `analyse_with_nova` of `src/nova_engine.py`: the retry loop started at
attempt 0 with `max_retries` iterations available. -/
def analyse_with_nova (call : Nat → Except String String)
    (parse : String → Except String ParsedDoc) : AnalyseRun :=
  analyseAttempts call parse 0 max_retries

/-- Does attempt `k` of the analysis loop raise an exception (either the
remote call itself, or `json.loads` on the extracted substring)?  An
attempt whose text holds no brace delimiters does NOT raise: it returns
the `"Analysis parsing failed"` soft result directly. -/
def attemptRaises (call : Nat → Except String String)
    (parse : String → Except String ParsedDoc) (k : Nat) : Bool :=
  match call k with
  | .error _ => true
  | .ok text =>
    match extractJsonStr text with
    | some js =>
      match parse js with
      | .error _ => true
      | .ok _ => false
    | none => false

/-- One run of the capture orchestrator: the returned artifact path (or
`none` on total failure), how many attempts each tier made, and the
back-off sleeps performed inside tier 2. -/
structure CaptureRun where
  result : Option String
  tier1Attempts : Nat
  tier2Attempts : Nat
  tier2Sleeps : List Nat
deriving DecidableEq, Repr

/-- `capture_screenshot` of `src/nova_engine.py`.  `tier1` is the NovaAct
block (`.ok` when the import, navigation and screenshot all succeed);
`tier2 k` is the outcome of running the Playwright subprocess for the
`k`-th time (`.ok` when the return code is 0 and `"SUCCESS"` is printed,
`.error` otherwise — exception and bad-exit cases collapse into the same
`except` branch).  The source consults `tier2 0` only: its tier-2 block
is one `try` with a single `subprocess.run`, no loop and no sleep; a
retrying variant would consult `tier2 1`, `tier2 2`, … and record sleeps. -/
def capture_screenshot (tier1 : Except String Unit)
    (tier2 : Nat → Except String Unit) (path : String) : CaptureRun :=
  match tier1 with
  | .ok _ => ⟨some path, 1, 0, []⟩
  | .error _ =>
    match tier2 0 with
    | .ok _ => ⟨some path, 1, 1, []⟩
    | .error _ => ⟨none, 1, 1, []⟩

/-- The `results["summary"]` dict.  It is created as
`{"passed": 0, "total": 25, "score": 0}` and replaced wholesale on the
success path by the eight-key scored dict; keys absent from the
placeholder are `none`. -/
structure Summary where
  passed : Int
  total : Nat
  score : Int
  wcag_level : Option String
  by_principle : Option (List (String × Int))
  critical : Option Nat
  major : Option Nat
  minor : Option Nat
deriving DecidableEq, Repr

/-- The placeholder summary `{"passed": 0, "total": 25, "score": 0}`. -/
def initSummary : Summary := ⟨0, 25, 0, none, none, none, none, none⟩

/-- The `results["metadata"]` dict (the two constant flags are omitted). -/
structure Metadata where
  model_used : String
  web_grounding_sources : List String
  overall_assessment : String
deriving DecidableEq, Repr

/-- The `results` dict of `run_accessibility_test`; keys only ever set on
one branch (`error`, `screenshot_path`, `metadata`) are options. -/
structure Report where
  url : String
  issues : List Issue
  summary : Summary
  screenshot_path : Option String
  error : Option String
  metadata : Option Metadata
deriving DecidableEq, Repr

/-- `NOVA_MODEL` of `src/nova_engine.py`. -/
def NOVA_MODEL : String := "amazon.nova-pro-v1:0"

/-- `run_accessibility_test` of `src/nova_engine.py`: run the capture
orchestrator; when it yields no screenshot, return the error report
immediately (analysis and scoring are never invoked); otherwise analyse
the screenshot (`analyse` is `analyse_with_nova` applied to the path),
score the issues and assemble the full report. -/
def run_accessibility_test (url : String) (tier1 : Except String Unit)
    (tier2 : Nat → Except String Unit) (path : String)
    (analyse : String → NovaResult) : Report :=
  match (capture_screenshot tier1 tier2 path).result with
  | none =>
      { url := url, issues := [], summary := initSummary,
        screenshot_path := none,
        error := some "Full Engine Failure: Could not capture screenshot via any tier.",
        metadata := none }
  | some p =>
      let nr := analyse p
      let w := calculate_wcag_scores nr.issues
      { url := url
        issues := nr.issues
        summary :=
          { passed := (w.total_issues : Int) - (w.critical_count : Int)
            total := w.total_issues
            score := w.overall_score
            wcag_level := some w.wcag_level
            by_principle := some w.scores_by_principle
            critical := some w.critical_count
            major := some w.major_count
            minor := some w.minor_count }
        screenshot_path := some p
        error := none
        metadata := some ⟨NOVA_MODEL, nr.sources, nr.assessment⟩ }

/-! ## Helper lemmas on the scorer -/

/-- Every principle score is of the `max 0` shape, hence non-negative. -/
lemma principleScore_nonneg (issues : List Issue) (p : String) :
    0 ≤ principleScore issues p :=
  le_max_left 0 _

/-- A principle score never exceeds 100: its deduction is non-negative. -/
lemma principleScore_le_100 (issues : List Issue) (p : String) :
    principleScore issues p ≤ 100 := by
  unfold principleScore
  omega

/-- Classification skips every principle none of whose codes matches. -/
lemma classifyIssue_append_of_no_match (id : String)
    (l1 l2 : List (String × List String))
    (h : ∀ q ∈ l1, q.2.any (fun code => strStarts id code) = false) :
    classifyIssue id (l1 ++ l2) = classifyIssue id l2 := by
  induction l1 with
  | nil => rfl
  | cons q rest ih =>
      obtain ⟨p, codes⟩ := q
      have hq := h _ (List.mem_cons_self _ _)
      simp only [List.cons_append, classifyIssue, hq]
      simp only [Bool.false_eq_true, if_false]
      exact ih fun q hqm => h _ (List.mem_cons_of_mem _ hqm)

/-- Classification returns `none` exactly when no principle has a
matching code. -/
lemma classifyIssue_eq_none_iff (id : String) (l : List (String × List String)) :
    classifyIssue id l = none ↔
      ∀ q ∈ l, q.2.any (fun code => strStarts id code) = false := by
  induction l with
  | nil => simp [classifyIssue]
  | cons q rest ih =>
      obtain ⟨p, codes⟩ := q
      unfold classifyIssue
      by_cases hq : codes.any (fun code => strStarts id code) = true
      · simp only [hq, if_true]
        constructor
        · intro h
          cases h
        · intro h
          have hcontr := h (p, codes) (List.mem_cons_self _ _)
          rw [hq] at hcontr
          cases hcontr
      · simp only [Bool.not_eq_true] at hq
        rw [hq]
        simp only [Bool.false_eq_true, if_false]
        rw [ih]
        constructor
        · intro h q hqm
          rcases List.mem_cons.1 hqm with heq | hm
          · rw [heq]
            exact hq
          · exact h q hm
        · intro h q hm
          exact h q (List.mem_cons_of_mem _ hm)

/-- Filtering a list all of whose elements fail the predicate is empty. -/
lemma filter_eq_nil_of_none (issues : List Issue) (p : String)
    (h : ∀ i ∈ issues, classifyIssue (issueId i) WCAG_PRINCIPLES = none) :
    principleIssues issues p = [] := by
  unfold principleIssues
  rw [List.filter_eq_nil_iff]
  intro i hi
  simp [h i hi]

/-! ## Claims about the scorer -/

/-- C1: for every issue list and every one of the four principles, the
score table entry for that principle is `max 0 (100 - deduction)`, where
the deduction is the sum of the severity weights of exactly the issues
classified into that principle, and every score entry is non-negative. -/
theorem scorer_principle_score_formula (issues : List Issue) (p : String)
    (hp : p ∈ WCAG_PRINCIPLES.map Prod.fst) :
    (calculate_wcag_scores issues).scores_by_principle.lookup p
      = some (max 0 (100 -
          (((issues.filter
              (fun i => classifyIssue (issueId i) WCAG_PRINCIPLES = some p)).map
            severityWeight).sum : Int)))
    ∧ (∀ q ∈ (calculate_wcag_scores issues).scores_by_principle, 0 ≤ q.2)
    ∧ (∀ w : Option String,
        severityWeight ⟨w, some "CRITICAL"⟩ = 20
        ∧ severityWeight ⟨w, some "MAJOR"⟩ = 10
        ∧ severityWeight ⟨w, some "MINOR"⟩ = 4
        ∧ severityWeight ⟨w, some "INFO"⟩ = 1
        ∧ severityWeight ⟨w, some "UNRECOGNIZED"⟩ = 4
        ∧ severityWeight ⟨w, none⟩ = 4) := by
  refine ⟨?_, ?_, ?_⟩
  · have hform : ∀ pn : String,
        some (principleScore issues pn)
          = some (max 0 (100 -
              (((issues.filter
                  (fun i => classifyIssue (issueId i) WCAG_PRINCIPLES = some pn)).map
                severityWeight).sum : Int))) := fun _ => rfl
    simp only [WCAG_PRINCIPLES, List.map, List.mem_cons, List.not_mem_nil, or_false] at hp
    rcases hp with h | h | h | h <;> subst h <;>
      simpa [calculate_wcag_scores, WCAG_PRINCIPLES, List.lookup] using hform _
  · intro q hq
    simp only [calculate_wcag_scores, List.mem_map] at hq
    obtain ⟨pc, _, rfl⟩ := hq
    exact principleScore_nonneg issues pc.1
  · intro w
    exact ⟨rfl, rfl, rfl, rfl, rfl, rfl⟩

/-- C1 witness: the formula instantiated on a concrete single-issue list
and the principle `"Operable"`. -/
theorem scorer_principle_score_formula_witness :
    ("Operable" ∈ WCAG_PRINCIPLES.map Prod.fst) ∧
    ((calculate_wcag_scores [⟨some "2.4.7", some "MAJOR"⟩]).scores_by_principle.lookup "Operable"
        = some (max 0 (100 -
            ((([⟨some "2.4.7", some "MAJOR"⟩] : List Issue).filter
                (fun i => classifyIssue (issueId i) WCAG_PRINCIPLES = some "Operable")).map
              severityWeight).sum))
      ∧ (∀ q ∈ (calculate_wcag_scores [⟨some "2.4.7", some "MAJOR"⟩]).scores_by_principle,
          0 ≤ q.2)
      ∧ severityWeight ⟨some "2.4.7", some "CRITICAL"⟩ = 20) :=
  ⟨by decide,
    (scorer_principle_score_formula [⟨some "2.4.7", some "MAJOR"⟩] "Operable" (by decide)).1,
    (scorer_principle_score_formula [⟨some "2.4.7", some "MAJOR"⟩] "Operable" (by decide)).2.1,
    ((scorer_principle_score_formula [⟨some "2.4.7", some "MAJOR"⟩] "Operable"
        (by decide)).2.2 (some "2.4.7")).1⟩

/-- C2: the overall score is the sum of the score-table values divided by
the literal 4, and the score table always has exactly 4 entries (one per
principle), independently of the issue list; spelled out, the overall
score is the integer quarter of the sum of the four principle scores. -/
theorem scorer_overall_fixed_denominator (issues : List Issue) :
    (calculate_wcag_scores issues).scores_by_principle.length = 4
    ∧ (calculate_wcag_scores issues).overall_score =
        ((calculate_wcag_scores issues).scores_by_principle.map Prod.snd).sum / 4
    ∧ (calculate_wcag_scores issues).overall_score =
        (principleScore issues "Perceivable" + principleScore issues "Operable"
          + principleScore issues "Understandable" + principleScore issues "Robust") / 4 := by
  refine ⟨rfl, rfl, ?_⟩
  show ((WCAG_PRINCIPLES.map
      (fun pc => (pc.1, principleScore issues pc.1))).map Prod.snd).sum
        / ((WCAG_PRINCIPLES.map (fun pc => (pc.1, principleScore issues pc.1))).length : Int)
      = _
  simp [WCAG_PRINCIPLES]
  ring_nf

/-- C3: classification picks the first principle (in the fixed order of
`WCAG_PRINCIPLES`) one of whose codes starts the issue identifier; when
no code matches (in particular for the empty identifier) the issue is
unclassified: it is counted in `unclassified_count` and `total_issues`,
adds nothing to any principle's deduction, and a list of only
unclassified issues leaves all four principle scores at 100. -/
theorem scorer_first_match_classification :
    (∀ id pn codes l1 l2,
        WCAG_PRINCIPLES = l1 ++ (pn, codes) :: l2 →
        (∀ q ∈ l1, q.2.any (fun code => strStarts id code) = false) →
        codes.any (fun code => strStarts id code) = true →
        classifyIssue id WCAG_PRINCIPLES = some pn)
    ∧ (∀ id, (∀ q ∈ WCAG_PRINCIPLES, q.2.any (fun code => strStarts id code) = false) →
        classifyIssue id WCAG_PRINCIPLES = none)
    ∧ classifyIssue "" WCAG_PRINCIPLES = none
    ∧ (∀ issues : List Issue,
        (∀ i ∈ issues, classifyIssue (issueId i) WCAG_PRINCIPLES = none) →
        (calculate_wcag_scores issues).unclassified_count = issues.length
        ∧ (calculate_wcag_scores issues).total_issues = issues.length
        ∧ ∀ q ∈ (calculate_wcag_scores issues).scores_by_principle, q.2 = 100)
    ∧ (∀ (i : Issue) (issues : List Issue) (p : String),
        classifyIssue (issueId i) WCAG_PRINCIPLES = none →
        deduction (i :: issues) p = deduction issues p) := by
  refine ⟨?_, ?_, ?_, ?_, ?_⟩
  · intro id pn codes l1 l2 hsplit hskip hmatch
    rw [hsplit, classifyIssue_append_of_no_match id l1 _ hskip]
    unfold classifyIssue
    rw [hmatch]
    rfl
  · intro id h
    exact (classifyIssue_eq_none_iff id WCAG_PRINCIPLES).2 h
  · decide
  · intro issues h
    refine ⟨?_, rfl, ?_⟩
    · show (unclassifiedIssues issues).length = issues.length
      unfold unclassifiedIssues
      rw [List.filter_eq_self.mpr]
      intro a ha
      simp [h a ha]
    · intro q hq
      simp only [calculate_wcag_scores, List.mem_map] at hq
      obtain ⟨pc, _, rfl⟩ := hq
      show principleScore issues pc.1 = 100
      unfold principleScore deduction
      rw [filter_eq_nil_of_none issues pc.1 h]
      rfl
  · intro i issues p h
    unfold deduction principleIssues
    rw [List.filter_cons]
    simp [h]

/-- C3 witness: a list of two unclassifiable issues (an unmatched code and
an absent identifier) instantiating the unclassified-count conjunct. -/
theorem scorer_first_match_classification_witness :
    (∀ i ∈ ([⟨some "9.9.9", some "CRITICAL"⟩, ⟨none, some "MAJOR"⟩] : List Issue),
        classifyIssue (issueId i) WCAG_PRINCIPLES = none)
    ∧ ((calculate_wcag_scores [⟨some "9.9.9", some "CRITICAL"⟩, ⟨none, some "MAJOR"⟩]).unclassified_count
          = ([⟨some "9.9.9", some "CRITICAL"⟩, ⟨none, some "MAJOR"⟩] : List Issue).length
        ∧ (calculate_wcag_scores [⟨some "9.9.9", some "CRITICAL"⟩, ⟨none, some "MAJOR"⟩]).total_issues
          = ([⟨some "9.9.9", some "CRITICAL"⟩, ⟨none, some "MAJOR"⟩] : List Issue).length
        ∧ ∀ q ∈ (calculate_wcag_scores
            [⟨some "9.9.9", some "CRITICAL"⟩, ⟨none, some "MAJOR"⟩]).scores_by_principle,
              q.2 = 100) :=
  ⟨by decide,
    scorer_first_match_classification.2.2.2.1
      [⟨some "9.9.9", some "CRITICAL"⟩, ⟨none, some "MAJOR"⟩] (by decide)⟩

/-- C4: the conformance level is decided by inclusive lower bounds on the
overall score, checked in descending order (≥90, ≥75, ≥55, else), and in
particular overall scores of exactly 90, 89, 75, 74, 55 and 54 map to the
stated level strings. -/
theorem scorer_conformance_thresholds (issues : List Issue) :
    ((calculate_wcag_scores issues).overall_score ≥ 90 →
        (calculate_wcag_scores issues).wcag_level = "AAA - Enhanced")
    ∧ (75 ≤ (calculate_wcag_scores issues).overall_score →
        (calculate_wcag_scores issues).overall_score < 90 →
        (calculate_wcag_scores issues).wcag_level = "AA - Conformant")
    ∧ (55 ≤ (calculate_wcag_scores issues).overall_score →
        (calculate_wcag_scores issues).overall_score < 75 →
        (calculate_wcag_scores issues).wcag_level = "AA - Partially Conformant")
    ∧ ((calculate_wcag_scores issues).overall_score < 55 →
        (calculate_wcag_scores issues).wcag_level = "A - Partially Conformant")
    ∧ ((calculate_wcag_scores issues).overall_score = 90 →
        (calculate_wcag_scores issues).wcag_level = "AAA - Enhanced")
    ∧ ((calculate_wcag_scores issues).overall_score = 89 →
        (calculate_wcag_scores issues).wcag_level = "AA - Conformant")
    ∧ ((calculate_wcag_scores issues).overall_score = 75 →
        (calculate_wcag_scores issues).wcag_level = "AA - Conformant")
    ∧ ((calculate_wcag_scores issues).overall_score = 74 →
        (calculate_wcag_scores issues).wcag_level = "AA - Partially Conformant")
    ∧ ((calculate_wcag_scores issues).overall_score = 55 →
        (calculate_wcag_scores issues).wcag_level = "AA - Partially Conformant")
    ∧ ((calculate_wcag_scores issues).overall_score = 54 →
        (calculate_wcag_scores issues).wcag_level = "A - Partially Conformant") := by
  have hlvl : (calculate_wcag_scores issues).wcag_level
      = wcagLevelOf (calculate_wcag_scores issues).overall_score := rfl
  rw [hlvl]
  generalize (calculate_wcag_scores issues).overall_score = o
  unfold wcagLevelOf
  refine ⟨?_, ?_, ?_, ?_, ?_, ?_, ?_, ?_, ?_, ?_⟩ <;>
    { intros
      split_ifs <;> first | rfl | omega }

/-- C4 witness: concrete issue lists whose overall scores are exactly 90,
89, 75, 74, 55 and 54, instantiating the boundary conjuncts. -/
theorem scorer_conformance_thresholds_witness :
    ((calculate_wcag_scores (List.replicate 2 ⟨some "1.1.1", some "CRITICAL"⟩)).overall_score = 90
      ∧ (calculate_wcag_scores (List.replicate 2 ⟨some "1.1.1", some "CRITICAL"⟩)).wcag_level
          = "AAA - Enhanced")
    ∧ ((calculate_wcag_scores
          (⟨some "1.1.1", some "MINOR"⟩ :: List.replicate 2 ⟨some "1.1.1", some "CRITICAL"⟩)).overall_score = 89
      ∧ (calculate_wcag_scores
          (⟨some "1.1.1", some "MINOR"⟩ :: List.replicate 2 ⟨some "1.1.1", some "CRITICAL"⟩)).wcag_level
          = "AA - Conformant")
    ∧ ((calculate_wcag_scores (List.replicate 6 ⟨some "1.1.1", some "CRITICAL"⟩)).overall_score = 75
      ∧ (calculate_wcag_scores (List.replicate 6 ⟨some "1.1.1", some "CRITICAL"⟩)).wcag_level
          = "AA - Conformant")
    ∧ ((calculate_wcag_scores
          (⟨some "2.1.1", some "MINOR"⟩ :: List.replicate 6 ⟨some "1.1.1", some "CRITICAL"⟩)).overall_score = 74
      ∧ (calculate_wcag_scores
          (⟨some "2.1.1", some "MINOR"⟩ :: List.replicate 6 ⟨some "1.1.1", some "CRITICAL"⟩)).wcag_level
          = "AA - Partially Conformant")
    ∧ ((calculate_wcag_scores
          (List.replicate 4 ⟨some "2.1.1", some "CRITICAL"⟩
            ++ List.replicate 6 ⟨some "1.1.1", some "CRITICAL"⟩)).overall_score = 55
      ∧ (calculate_wcag_scores
          (List.replicate 4 ⟨some "2.1.1", some "CRITICAL"⟩
            ++ List.replicate 6 ⟨some "1.1.1", some "CRITICAL"⟩)).wcag_level
          = "AA - Partially Conformant")
    ∧ ((calculate_wcag_scores
          (⟨some "2.1.1", some "MINOR"⟩ :: List.replicate 4 ⟨some "2.1.1", some "CRITICAL"⟩
            ++ List.replicate 6 ⟨some "1.1.1", some "CRITICAL"⟩)).overall_score = 54
      ∧ (calculate_wcag_scores
          (⟨some "2.1.1", some "MINOR"⟩ :: List.replicate 4 ⟨some "2.1.1", some "CRITICAL"⟩
            ++ List.replicate 6 ⟨some "1.1.1", some "CRITICAL"⟩)).wcag_level
          = "A - Partially Conformant") :=
  ⟨⟨by decide, (scorer_conformance_thresholds _).2.2.2.2.1 (by decide)⟩,
    ⟨by decide, (scorer_conformance_thresholds _).2.2.2.2.2.1 (by decide)⟩,
    ⟨by decide, (scorer_conformance_thresholds _).2.2.2.2.2.2.1 (by decide)⟩,
    ⟨by decide, (scorer_conformance_thresholds _).2.2.2.2.2.2.2.1 (by decide)⟩,
    ⟨by decide, (scorer_conformance_thresholds _).2.2.2.2.2.2.2.2.1 (by decide)⟩,
    ⟨by decide, (scorer_conformance_thresholds _).2.2.2.2.2.2.2.2.2 (by decide)⟩⟩

/-- C5: the scorer on the empty issue list yields four scores of 100,
overall 100, level `"AAA - Enhanced"`, and all counts 0. -/
theorem scorer_empty_input :
    calculate_wcag_scores [] =
      { scores_by_principle :=
          [("Perceivable", 100), ("Operable", 100), ("Understandable", 100), ("Robust", 100)]
        overall_score := 100
        wcag_level := "AAA - Enhanced"
        total_issues := 0
        critical_count := 0
        major_count := 0
        minor_count := 0
        unclassified_count := 0 } := by
  decide

/-- C9 counterexample: an issue with an absent severity field is weighted
4 in its principle's deduction (Perceivable drops to 96), yet the
returned `minor_count` is 0, not 1 — the count comparison defaults the
absent severity to `""`, so the issue is NOT included in `minor_count`. -/
theorem severity_default_minor_count_counterexample :
    severityWeight ⟨some "1.1.1", none⟩ = 4
    ∧ (calculate_wcag_scores [⟨some "1.1.1", none⟩]).scores_by_principle.lookup "Perceivable"
        = some 96
    ∧ (calculate_wcag_scores [⟨some "1.1.1", none⟩]).minor_count = 0
    ∧ ¬ (calculate_wcag_scores [⟨some "1.1.1", none⟩]).minor_count = 1 := by
  decide

/-- C9 amended: an issue whose severity is absent or unrecognized is
weighted exactly as MINOR (4) in its principle's deduction, but it is
excluded from the returned `minor_count`, which counts only issues whose
severity string upper-cases to exactly `"MINOR"` (the count comparison
defaults an absent severity to `""`). -/
theorem severity_default_weight_not_counted (i : Issue)
    (h : i.severity = none
      ∨ ∃ s, i.severity = some s
          ∧ strUpper s ∉ (["CRITICAL", "MAJOR", "MINOR", "INFO"] : List String)) :
    severityWeight i = 4
    ∧ severityIs i "MINOR" = false
    ∧ (∀ rest : List Issue,
        (calculate_wcag_scores (i :: rest)).minor_count
          = (calculate_wcag_scores rest).minor_count)
    ∧ (∀ (rest : List Issue) (p : String),
        classifyIssue (issueId i) WCAG_PRINCIPLES = some p →
        deduction (i :: rest) p = 4 + deduction rest p) := by
  have hw : severityWeight i = 4 := by
    rcases h with hn | ⟨s, hs, hns⟩
    · simp only [severityWeight, hn]
      decide
    · simp only [List.mem_cons, List.not_mem_nil, or_false, not_or] at hns
      obtain ⟨h1, h2, h3, h4⟩ := hns
      simp [severityWeight, hs, SEVERITY_DEDUCTIONS, h1, h2, h3, h4]
  have hm : severityIs i "MINOR" = false := by
    rcases h with hn | ⟨s, hs, hns⟩
    · simp only [severityIs, hn]
      decide
    · simp only [List.mem_cons, List.not_mem_nil, or_false, not_or] at hns
      obtain ⟨h1, h2, h3, h4⟩ := hns
      simp [severityIs, hs, h3]
  refine ⟨hw, hm, ?_, ?_⟩
  · intro rest
    show (List.filter (fun j => severityIs j "MINOR") (i :: rest)).length
        = (List.filter (fun j => severityIs j "MINOR") rest).length
    rw [List.filter_cons]
    simp [hm]
  · intro rest p hc
    unfold deduction principleIssues
    rw [List.filter_cons]
    simp [hc, hw]

/-- C9 witness: the amended statement instantiated on an issue with an
absent severity, classified into Perceivable, next to an empty rest. -/
theorem severity_default_weight_not_counted_witness :
    ((⟨some "1.1.1", none⟩ : Issue).severity = none
      ∨ ∃ s, (⟨some "1.1.1", none⟩ : Issue).severity = some s
          ∧ strUpper s ∉ (["CRITICAL", "MAJOR", "MINOR", "INFO"] : List String))
    ∧ severityWeight ⟨some "1.1.1", none⟩ = 4
    ∧ severityIs ⟨some "1.1.1", none⟩ "MINOR" = false
    ∧ (calculate_wcag_scores [(⟨some "1.1.1", none⟩ : Issue)]).minor_count
        = (calculate_wcag_scores []).minor_count
    ∧ deduction [(⟨some "1.1.1", none⟩ : Issue)] "Perceivable"
        = 4 + deduction [] "Perceivable" :=
  ⟨Or.inl rfl,
    (severity_default_weight_not_counted ⟨some "1.1.1", none⟩ (Or.inl rfl)).1,
    (severity_default_weight_not_counted ⟨some "1.1.1", none⟩ (Or.inl rfl)).2.1,
    (severity_default_weight_not_counted ⟨some "1.1.1", none⟩ (Or.inl rfl)).2.2.1 [],
    (severity_default_weight_not_counted ⟨some "1.1.1", none⟩ (Or.inl rfl)).2.2.2 []
      "Perceivable" (by decide)⟩

/-- C10: every principle score of the returned table and the overall
score lie in `[0, 100]`. -/
theorem scorer_scores_bounded (issues : List Issue) :
    (∀ q ∈ (calculate_wcag_scores issues).scores_by_principle, 0 ≤ q.2 ∧ q.2 ≤ 100)
    ∧ 0 ≤ (calculate_wcag_scores issues).overall_score
    ∧ (calculate_wcag_scores issues).overall_score ≤ 100 := by
  refine ⟨?_, ?_, ?_⟩
  · intro q hq
    simp only [calculate_wcag_scores, List.mem_map] at hq
    obtain ⟨pc, _, rfl⟩ := hq
    exact ⟨principleScore_nonneg issues pc.1, principleScore_le_100 issues pc.1⟩
  · show 0 ≤ ((WCAG_PRINCIPLES.map
        (fun pc => (pc.1, principleScore issues pc.1))).map Prod.snd).sum
          / ((WCAG_PRINCIPLES.map (fun pc => (pc.1, principleScore issues pc.1))).length : Int)
    have h1 := principleScore_nonneg issues "Perceivable"
    have h2 := principleScore_nonneg issues "Operable"
    have h3 := principleScore_nonneg issues "Understandable"
    have h4 := principleScore_nonneg issues "Robust"
    simp [WCAG_PRINCIPLES]
    omega
  · show ((WCAG_PRINCIPLES.map
        (fun pc => (pc.1, principleScore issues pc.1))).map Prod.snd).sum
          / ((WCAG_PRINCIPLES.map (fun pc => (pc.1, principleScore issues pc.1))).length : Int)
        ≤ 100
    have h1 := principleScore_le_100 issues "Perceivable"
    have h2 := principleScore_le_100 issues "Operable"
    have h3 := principleScore_le_100 issues "Understandable"
    have h4 := principleScore_le_100 issues "Robust"
    have g1 := principleScore_nonneg issues "Perceivable"
    have g2 := principleScore_nonneg issues "Operable"
    have g3 := principleScore_nonneg issues "Understandable"
    have g4 := principleScore_nonneg issues "Robust"
    simp [WCAG_PRINCIPLES]
    omega

/-- C10 witness: the bounds instantiated on a concrete list heavy enough
to floor one principle, with the membership hypothesis discharged on the
`"Perceivable"` entry. -/
theorem scorer_scores_bounded_witness :
    (("Perceivable", (0 : Int)) ∈
        (calculate_wcag_scores (List.replicate 6 ⟨some "1.1.1", some "CRITICAL"⟩)).scores_by_principle
      ∧ (0 ≤ (0 : Int) ∧ (0 : Int) ≤ 100))
    ∧ 0 ≤ (calculate_wcag_scores (List.replicate 6 ⟨some "1.1.1", some "CRITICAL"⟩)).overall_score
    ∧ (calculate_wcag_scores (List.replicate 6 ⟨some "1.1.1", some "CRITICAL"⟩)).overall_score ≤ 100 :=
  ⟨⟨by decide,
      (scorer_scores_bounded (List.replicate 6 ⟨some "1.1.1", some "CRITICAL"⟩)).1
        ("Perceivable", (0 : Int)) (by decide)⟩,
    (scorer_scores_bounded (List.replicate 6 ⟨some "1.1.1", some "CRITICAL"⟩)).2.1,
    (scorer_scores_bounded (List.replicate 6 ⟨some "1.1.1", some "CRITICAL"⟩)).2.2⟩

/-! ## Helper lemmas on the analysis retry loop -/

/-- When attempt `a` raises and iterations remain, the loop sleeps
`2 ^ a` seconds and recurses; on the last iteration it returns the
`"Bedrock error: …"` soft failure carrying the exception text. -/
lemma analyseAttempts_step_raise (call : Nat → Except String String)
    (parse : String → Except String ParsedDoc) (a r : Nat)
    (h : attemptRaises call parse a = true) :
    ∃ m, analyseAttempts call parse a (r + 1)
      = if r = 0 then ⟨⟨[], [], "Bedrock error: " ++ m⟩, []⟩
        else ⟨(analyseAttempts call parse (a + 1) r).result,
              2 ^ a :: (analyseAttempts call parse (a + 1) r).sleeps⟩ := by
  unfold attemptRaises at h
  rcases hc : call a with e | t
  · refine ⟨e, ?_⟩
    by_cases hr : r = 0
    · subst hr
      simp only [analyseAttempts, hc]
    · rw [if_neg hr]
      simp only [analyseAttempts, hc]
      rw [if_neg hr]
  · simp only [hc] at h
    rcases he : extractJsonStr t with _ | js
    · simp only [he] at h
      cases h
    · simp only [he] at h
      rcases hp : parse js with pe | pd
      · refine ⟨pe, ?_⟩
        by_cases hr : r = 0
        · subst hr
          simp only [analyseAttempts, hc, he, hp]
        · rw [if_neg hr]
          simp only [analyseAttempts, hc, he, hp]
          rw [if_neg hr]
      · simp only [hp] at h
        cases h

/-- The last loop iteration never sleeps: whatever happens at attempt `a`
with one iteration left, the sleep list is empty. -/
lemma analyseAttempts_last_no_sleep (call : Nat → Except String String)
    (parse : String → Except String ParsedDoc) (a : Nat) :
    (analyseAttempts call parse a 1).sleeps = [] := by
  rcases hc : call a with e | t
  · simp [analyseAttempts, hc]
  · rcases he : extractJsonStr t with _ | js
    · simp [analyseAttempts, hc, he]
    · rcases hp : parse js with pe | pd <;> simp [analyseAttempts, hc, he, hp]

/-- Each loop iteration either returns with no further sleep or sleeps
`2 ^ a` once and defers to the next attempt. -/
lemma analyseAttempts_sleeps_cases (call : Nat → Except String String)
    (parse : String → Except String ParsedDoc) (a r : Nat) :
    (analyseAttempts call parse a (r + 1)).sleeps = []
    ∨ (analyseAttempts call parse a (r + 1)).sleeps
        = 2 ^ a :: (analyseAttempts call parse (a + 1) r).sleeps := by
  rcases hc : call a with e | t
  · by_cases hr : r = 0
    · subst hr
      left
      simp [analyseAttempts, hc]
    · right
      simp [analyseAttempts, hc, hr]
  · rcases he : extractJsonStr t with _ | js
    · left
      simp [analyseAttempts, hc, he]
    · rcases hp : parse js with pe | pd
      · by_cases hr : r = 0
        · subst hr
          left
          simp [analyseAttempts, hc, he, hp]
        · right
          simp [analyseAttempts, hc, he, hp, hr]
      · left
        simp [analyseAttempts, hc, he, hp]

/-! ## Claims about the engine -/

/-- C7: the analysis client is total — every exception path ends in a
returned value.  If all three attempts raise (remote-call exception, or a
`json.loads` failure on the extracted substring), the client returns
empty issues and sources with a `"Bedrock error: …"` assessment after
backoff sleeps of exactly `2^0 = 1` and `2^1 = 2` seconds; when the first
attempt's text holds no JSON delimiters it returns the
`"Analysis parsing failed"` soft result immediately with no sleep; after
a first-attempt exception it always sleeps 1 second and retries; and no
run ever sleeps more than the backoff schedule `[1, 2]` (at most 3
attempts total). -/
theorem analyse_soft_failure (call : Nat → Except String String)
    (parse : String → Except String ParsedDoc) :
    ((∀ k, k < max_retries → attemptRaises call parse k = true) →
        (analyse_with_nova call parse).result.issues = []
        ∧ (analyse_with_nova call parse).result.sources = []
        ∧ (∃ m, (analyse_with_nova call parse).result.assessment = "Bedrock error: " ++ m)
        ∧ (analyse_with_nova call parse).sleeps = [1, 2])
    ∧ (∀ t, call 0 = .ok t → extractJsonStr t = none →
        analyse_with_nova call parse = ⟨⟨[], [], "Analysis parsing failed"⟩, []⟩)
    ∧ (attemptRaises call parse 0 = true →
        ∃ s, (analyse_with_nova call parse).sleeps = 1 :: s)
    ∧ ((analyse_with_nova call parse).sleeps = []
        ∨ (analyse_with_nova call parse).sleeps = [1]
        ∨ (analyse_with_nova call parse).sleeps = [1, 2]) := by
  refine ⟨?_, ?_, ?_, ?_⟩
  · intro h
    obtain ⟨m0, e0⟩ := analyseAttempts_step_raise call parse 0 2 (h 0 (by decide))
    obtain ⟨m1, e1⟩ := analyseAttempts_step_raise call parse 1 1 (h 1 (by decide))
    obtain ⟨m2, e2⟩ := analyseAttempts_step_raise call parse 2 0 (h 2 (by decide))
    rw [if_neg (by omega)] at e0
    rw [if_neg (by omega)] at e1
    rw [if_pos rfl] at e2
    norm_num at e0 e1 e2
    unfold analyse_with_nova max_retries
    rw [e0, e1, e2]
    exact ⟨rfl, rfl, ⟨m2, rfl⟩, rfl⟩
  · intro t hc he
    unfold analyse_with_nova max_retries
    simp only [analyseAttempts, hc, he]
  · intro h
    obtain ⟨m0, e0⟩ := analyseAttempts_step_raise call parse 0 2 h
    rw [if_neg (by omega)] at e0
    norm_num at e0
    unfold analyse_with_nova max_retries
    rw [e0]
    exact ⟨_, rfl⟩
  · unfold analyse_with_nova max_retries
    rcases analyseAttempts_sleeps_cases call parse 0 2 with h0 | h0 <;> norm_num at h0
    · exact Or.inl h0
    · rcases analyseAttempts_sleeps_cases call parse 1 1 with h1 | h1 <;> norm_num at h1
      · rw [h1] at h0
        exact Or.inr (Or.inl h0)
      · rw [analyseAttempts_last_no_sleep call parse 2] at h1
        rw [h1] at h0
        exact Or.inr (Or.inr h0)

/-- C7 witness: a remote call that raises on every attempt, instantiating
the full-failure and first-raise conjuncts. -/
theorem analyse_soft_failure_witness :
    (∀ k, k < max_retries →
        attemptRaises (fun _ => .error "boom") (fun _ => .error "bad") k = true)
    ∧ ((analyse_with_nova (fun _ => .error "boom") (fun _ => .error "bad")).result.issues = []
        ∧ (analyse_with_nova (fun _ => .error "boom") (fun _ => .error "bad")).result.sources = []
        ∧ (∃ m, (analyse_with_nova (fun _ => .error "boom")
              (fun _ => .error "bad")).result.assessment = "Bedrock error: " ++ m)
        ∧ (analyse_with_nova (fun _ => .error "boom") (fun _ => .error "bad")).sleeps = [1, 2])
    ∧ (∃ s, (analyse_with_nova (fun _ => .error "boom")
          (fun _ => .error "bad")).sleeps = 1 :: s) :=
  ⟨by decide,
    (analyse_soft_failure (fun _ => .error "boom") (fun _ => .error "bad")).1 (by decide),
    (analyse_soft_failure (fun _ => .error "boom") (fun _ => .error "bad")).2.2.1 (by decide)⟩

/-- C8 counterexample: with tier 1 and tier 2 both failing, the capture
orchestrator consults tier 2 exactly once and performs no backoff sleep
before returning the failure signal — it does not retry tier 2 up to 2
times with 1s and 2s backoff as claimed. -/
theorem capture_tier2_no_retry_counterexample :
    (capture_screenshot (.error "tier1 down") (fun _ => .error "tier2 down")
        "shot.png").tier2Attempts = 1
    ∧ (capture_screenshot (.error "tier1 down") (fun _ => .error "tier2 down")
        "shot.png").tier2Sleeps = []
    ∧ ¬ (capture_screenshot (.error "tier1 down") (fun _ => .error "tier2 down")
        "shot.png").tier2Sleeps = [1, 2]
    ∧ (capture_screenshot (.error "tier1 down") (fun _ => .error "tier2 down")
        "shot.png").result = none := by
  decide

/-- C8 amended: when tier 1 fails, tier 2 makes exactly one attempt, with
no internal retry and no backoff sleep; capture returns the failure
signal exactly when that single tier-2 attempt fails, and returns the
artifact path when it succeeds. -/
theorem capture_second_tier_single_attempt (e1 path : String)
    (tier2 : Nat → Except String Unit) :
    (capture_screenshot (.error e1) tier2 path).tier2Attempts = 1
    ∧ (capture_screenshot (.error e1) tier2 path).tier2Sleeps = []
    ∧ (∀ e2, tier2 0 = .error e2 →
        (capture_screenshot (.error e1) tier2 path).result = none)
    ∧ (tier2 0 = .ok () →
        (capture_screenshot (.error e1) tier2 path).result = some path) := by
  refine ⟨?_, ?_, ?_, ?_⟩
  · rcases h : tier2 0 with e | u <;> simp [capture_screenshot, h]
  · rcases h : tier2 0 with e | u <;> simp [capture_screenshot, h]
  · intro e2 h
    simp [capture_screenshot, h]
  · intro h
    simp [capture_screenshot, h]

/-- C8 amended witness: both tiers failing, instantiating the
single-attempt and failure-propagation conjuncts. -/
theorem capture_second_tier_single_attempt_witness :
    ((fun _ => Except.error "t2 down" : Nat → Except String Unit) 0
        = Except.error "t2 down")
    ∧ (capture_screenshot (.error "t1 down") (fun _ => .error "t2 down")
        "shot.png").tier2Attempts = 1
    ∧ (capture_screenshot (.error "t1 down") (fun _ => .error "t2 down")
        "shot.png").tier2Sleeps = []
    ∧ (capture_screenshot (.error "t1 down") (fun _ => .error "t2 down")
        "shot.png").result = none :=
  ⟨rfl,
    (capture_second_tier_single_attempt "t1 down" "shot.png" (fun _ => .error "t2 down")).1,
    (capture_second_tier_single_attempt "t1 down" "shot.png" (fun _ => .error "t2 down")).2.1,
    (capture_second_tier_single_attempt "t1 down" "shot.png"
        (fun _ => .error "t2 down")).2.2.1 "t2 down" rfl⟩

/-- C6: when every capture backend fails, the pipeline returns a report
with no issues, no screenshot path, a non-empty error text and the
untouched placeholder summary (no conformance level, no principle scores,
no counts — the score field keeps its constant 0 placeholder); the report
does not depend on the analyser, i.e. neither analysis nor scoring is
performed in that run. -/
theorem run_total_capture_failure (url path e1 : String)
    (tier2 : Nat → Except String Unit) (e2 : Nat → String)
    (h2 : ∀ k, tier2 k = .error (e2 k))
    (analyse analyse2 : String → NovaResult) :
    (run_accessibility_test url (.error e1) tier2 path analyse).issues = []
    ∧ (run_accessibility_test url (.error e1) tier2 path analyse).screenshot_path = none
    ∧ (∃ msg, (run_accessibility_test url (.error e1) tier2 path analyse).error = some msg
        ∧ msg ≠ "")
    ∧ (run_accessibility_test url (.error e1) tier2 path analyse).summary = initSummary
    ∧ (run_accessibility_test url (.error e1) tier2 path analyse).metadata = none
    ∧ run_accessibility_test url (.error e1) tier2 path analyse
        = run_accessibility_test url (.error e1) tier2 path analyse2 := by
  have hcap : capture_screenshot (.error e1) tier2 path = ⟨none, 1, 1, []⟩ := by
    unfold capture_screenshot
    rw [h2 0]
  have hrun : ∀ a : String → NovaResult,
      run_accessibility_test url (.error e1) tier2 path a
        = { url := url, issues := [], summary := initSummary, screenshot_path := none,
            error := some "Full Engine Failure: Could not capture screenshot via any tier.",
            metadata := none } := by
    intro a
    unfold run_accessibility_test
    rw [hcap]
  rw [hrun analyse, hrun analyse2]
  exact ⟨rfl, rfl, ⟨_, rfl, by decide⟩, rfl, rfl, rfl⟩

/-- C6 witness: both tiers fail on a concrete URL; two different
analysers (one of which would report a critical issue) yield the same
failure report. -/
theorem run_total_capture_failure_witness :
    (∀ k, (fun _ => Except.error "t2 down" : Nat → Except String Unit) k
        = Except.error ((fun _ => "t2 down") k))
    ∧ (run_accessibility_test "https://example.com" (.error "t1 down")
          (fun _ => .error "t2 down") "shot.png" (fun _ => ⟨[], [], ""⟩)).issues = []
    ∧ (run_accessibility_test "https://example.com" (.error "t1 down")
          (fun _ => .error "t2 down") "shot.png" (fun _ => ⟨[], [], ""⟩)).screenshot_path = none
    ∧ (∃ msg, (run_accessibility_test "https://example.com" (.error "t1 down")
          (fun _ => .error "t2 down") "shot.png" (fun _ => ⟨[], [], ""⟩)).error = some msg
        ∧ msg ≠ "")
    ∧ (run_accessibility_test "https://example.com" (.error "t1 down")
          (fun _ => .error "t2 down") "shot.png" (fun _ => ⟨[], [], ""⟩)).summary = initSummary
    ∧ run_accessibility_test "https://example.com" (.error "t1 down")
          (fun _ => .error "t2 down") "shot.png" (fun _ => ⟨[], [], ""⟩)
        = run_accessibility_test "https://example.com" (.error "t1 down")
          (fun _ => .error "t2 down") "shot.png"
          (fun _ => ⟨[⟨some "1.1.1", some "CRITICAL"⟩], ["src"], "bad page"⟩) :=
  ⟨fun _ => rfl,
    (run_total_capture_failure "https://example.com" "shot.png" "t1 down"
        (fun _ => .error "t2 down") (fun _ => "t2 down") (fun _ => rfl)
        (fun _ => ⟨[], [], ""⟩)
        (fun _ => ⟨[⟨some "1.1.1", some "CRITICAL"⟩], ["src"], "bad page"⟩)).1,
    (run_total_capture_failure "https://example.com" "shot.png" "t1 down"
        (fun _ => .error "t2 down") (fun _ => "t2 down") (fun _ => rfl)
        (fun _ => ⟨[], [], ""⟩)
        (fun _ => ⟨[⟨some "1.1.1", some "CRITICAL"⟩], ["src"], "bad page"⟩)).2.1,
    (run_total_capture_failure "https://example.com" "shot.png" "t1 down"
        (fun _ => .error "t2 down") (fun _ => "t2 down") (fun _ => rfl)
        (fun _ => ⟨[], [], ""⟩)
        (fun _ => ⟨[⟨some "1.1.1", some "CRITICAL"⟩], ["src"], "bad page"⟩)).2.2.1,
    (run_total_capture_failure "https://example.com" "shot.png" "t1 down"
        (fun _ => .error "t2 down") (fun _ => "t2 down") (fun _ => rfl)
        (fun _ => ⟨[], [], ""⟩)
        (fun _ => ⟨[⟨some "1.1.1", some "CRITICAL"⟩], ["src"], "bad page"⟩)).2.2.2.1,
    (run_total_capture_failure "https://example.com" "shot.png" "t1 down"
        (fun _ => .error "t2 down") (fun _ => "t2 down") (fun _ => rfl)
        (fun _ => ⟨[], [], ""⟩)
        (fun _ => ⟨[⟨some "1.1.1", some "CRITICAL"⟩], ["src"], "bad page"⟩)).2.2.2.2.2⟩

end NovaFlow
